import Mathlib

/-!
Verification of the Lahore AQI dashboard script (`streamlit_app.py`).

The script's pipeline is shallowly embedded here:
  * JSON values and the live-AQI fetch (`fetch_live_aqi`), together with
    Python truthiness (`truthy`) and the caller's fallback-to-160 policy
    (`resolveLive`);
  * the model/feature-manifest loading sequence (`loadModel`);
  * the synthetic feature sampler (`synthesize_value`), with the
    underlying unit random draw made an explicit parameter `u` in `[0,1]`
    so that `np.random.uniform lo hi` becomes `lo + u * (hi - lo)`;
  * the 30-day forecast loop (`forecastPoints`), with the model treated
    as an opaque function of the sampled row and the random stream made
    an explicit parameter.
-/

/-- JSON values, as delivered by `requests.get(url).json()`. -/
inductive Json where
  | null : Json
  | bool (b : Bool) : Json
  | num (q : ℚ) : Json
  | str (s : String) : Json
  | arr (elems : List Json) : Json
  | obj (fields : List (String × Json)) : Json

/-- Key lookup in a JSON object field list (first binding wins, as in a
parsed Python dict with distinct keys). -/
def lookupField : List (String × Json) → String → Option Json
  | [], _ => none
  | (k, v) :: rest, key => if k = key then some v else lookupField rest key

/-- Python `d.get(key)` / `d[key]` success case: `none` models both a
missing key and the `TypeError` of indexing a non-dict with a string. -/
def Json.get (j : Json) (key : String) : Option Json :=
  match j with
  | .obj fields => lookupField fields key
  | _ => none

/-- `fetch_live_aqi` from `streamlit_app.py`.  The argument is the parsed
response body; `none` models a network or JSON-parsing exception, which the
`try` block turns into `(None, {})`.  A `KeyError` on `response["data"]` or
`data["aqi"]` is likewise caught and becomes `(None, {})`. -/
def fetch_live_aqi (resp : Option Json) : Option Json × Json :=
  match resp with
  | none => (none, Json.obj [])
  | some r =>
    match r.get "status" with
    | some (Json.str s) =>
      if s = "ok" then
        match r.get "data" with
        | some d =>
          match d.get "aqi" with
          | some a => (some a, (d.get "iaqi").getD (Json.obj []))
          | none => (none, Json.obj [])
        | none => (none, Json.obj [])
      else (none, Json.obj [])
    | _ => (none, Json.obj [])

/-- Python truthiness of a JSON value (`bool(v)`). -/
def truthy : Json → Bool
  | .null => false
  | .bool b => b
  | .num q => q != 0
  | .str s => s != ""
  | .arr [] => false
  | .arr (_ :: _) => true
  | .obj [] => false
  | .obj (_ :: _) => true

/-- The caller's policy at `if live_aqi: ... else: live_aqi = 160`. -/
def resolveLive (a : Option Json) : Json :=
  match a with
  | some v => if truthy v then v else Json.num 160
  | none => Json.num 160

/-- Malformed or failed responses in the sense of the spec: a network or
parse error, a status other than the string "ok", or a body missing the
`data` object or its `aqi` entry. -/
def malformedResponse (resp : Option Json) : Prop :=
  match resp with
  | none => True
  | some r =>
    r.get "status" ≠ some (Json.str "ok") ∨
    r.get "data" = none ∨
    (∃ d, r.get "data" = some d ∧ d.get "aqi" = none)

/-- Environment seen by the model-loading block: whether the two files
exist, the parsed contents of the feature manifest, and the result of
introspecting `model.feature_names_in_` (`none` when that raises). -/
structure LoaderEnv where
  modelExists : Bool
  manifestExists : Bool
  manifest : List String
  introspect : Option (List String)

/-- Outcome of the loading block: either the process was stopped
(`st.stop()` after an error) or the feature-column list was resolved. -/
inductive LoaderResult where
  | halted : LoaderResult
  | loaded (featureColumns : List String) : LoaderResult
deriving DecidableEq

/-- The model-loading block of `streamlit_app.py`: halt when the model
artifact is absent; otherwise read the manifest when present, else fall
back to `model.feature_names_in_`, and halt when that too fails. -/
def loadModel (env : LoaderEnv) : LoaderResult :=
  if !env.modelExists then .halted
  else if env.manifestExists then .loaded env.manifest
  else
    match env.introspect with
    | some fs => .loaded fs
    | none => .halted

/-- Python `str.lower()` on the character list of a feature name. -/
def pyLower (col : List Char) : List Char :=
  col.map Char.toLower

/-- Whether `hay` starts with `needle` (helper for substring search). -/
def startsWithChars : List Char → List Char → Bool
  | [], _ => true
  | _ :: _, [] => false
  | a :: as, b :: bs => a == b && startsWithChars as bs

/-- Python `needle in hay` substring membership on strings. -/
def hasSub (needle hay : List Char) : Bool :=
  match hay with
  | [] => needle.isEmpty
  | _ :: rest => startsWithChars needle hay || hasSub needle rest

/-- The `(lo, hi)` pair handed to `np.random.uniform` by
`synthesize_value`, following the source's dispatch chain exactly. -/
def synthRange (col : List Char) : ℚ × ℚ :=
  let c := pyLower col
  if hasSub "pm2".toList c then (40, 180)
  else if hasSub "pm10".toList c then (50, 250)
  else if hasSub "no2".toList c then (10, 120)
  else if hasSub "o3".toList c then (10, 100)
  else if hasSub "so2".toList c then (5, 80)
  else if hasSub "co".toList c then (1/10, 4)
  else if hasSub "temp".toList c || hasSub "t".toList c then (10, 40)
  else if hasSub "humid".toList c || hasSub "h".toList c then (20, 80)
  else (0, 100)

/-- `synthesize_value` with the unit random draw `u ∈ [0,1]` explicit:
`np.random.uniform lo hi` is modelled as `lo + u * (hi - lo)`. -/
def synthesize_value (col : List Char) (u : ℚ) : ℚ :=
  (synthRange col).1 + u * ((synthRange col).2 - (synthRange col).1)

/-- The known tokens of the sampler's dispatch table; `temp` stands for
the paired tokens temp/t and `humid` for humid/h, as in the spec. -/
inductive Token where
  | pm2 | pm10 | no2 | o3 | so2 | co | temp | humid
deriving DecidableEq

/-- The uniform range the spec declares for each token. -/
def declaredRange : Token → ℚ × ℚ
  | .pm2 => (40, 180)
  | .pm10 => (50, 250)
  | .no2 => (10, 120)
  | .o3 => (10, 100)
  | .so2 => (5, 80)
  | .co => (1/10, 4)
  | .temp => (10, 40)
  | .humid => (20, 80)

/-- Case-insensitive substring match of a token against a lowercased
feature name. -/
def matchesToken (t : Token) (c : List Char) : Bool :=
  match t with
  | .pm2 => hasSub "pm2".toList c
  | .pm10 => hasSub "pm10".toList c
  | .no2 => hasSub "no2".toList c
  | .o3 => hasSub "o3".toList c
  | .so2 => hasSub "so2".toList c
  | .co => hasSub "co".toList c
  | .temp => hasSub "temp".toList c || hasSub "t".toList c
  | .humid => hasSub "humid".toList c || hasSub "h".toList c

/-- The first token matching a lowercased name in the source's dispatch
order, `none` when no token matches. -/
def firstTokenMatch (c : List Char) : Option Token :=
  if matchesToken .pm2 c then some .pm2
  else if matchesToken .pm10 c then some .pm10
  else if matchesToken .no2 c then some .no2
  else if matchesToken .o3 c then some .o3
  else if matchesToken .so2 c then some .so2
  else if matchesToken .co c then some .co
  else if matchesToken .temp c then some .temp
  else if matchesToken .humid c then some .humid
  else none

/-- No known token matches the lowercased name: none of the ten substring
probes pm2, pm10, no2, o3, so2, co, temp, t, humid, h succeeds. -/
def noKnownToken (c : List Char) : Prop :=
  hasSub "pm2".toList c = false ∧ hasSub "pm10".toList c = false ∧
  hasSub "no2".toList c = false ∧ hasSub "o3".toList c = false ∧
  hasSub "so2".toList c = false ∧ hasSub "co".toList c = false ∧
  hasSub "temp".toList c = false ∧ hasSub "t".toList c = false ∧
  hasSub "humid".toList c = false ∧ hasSub "h".toList c = false

/-- One synthetic feature row for a single day: each feature name is
sampled with its own unit random draw `dayStream j`, where `j` is the
feature's position in `feature_columns`. -/
def featureRow (features : List (List Char)) (dayStream : ℕ → ℚ) : List ℚ :=
  features.enum.map (fun p => synthesize_value p.2 (dayStream p.1))

/-- The forecast loop `for i in range(1, 31)`: for each day offset `i`
build a synthetic row, apply the (opaque) regression model, and pair the
prediction with the date `today + i`.  `stream i j` is the unit random
draw used for feature `j` on day `i`. -/
def forecastPoints (today : ℤ) (features : List (List Char))
    (model : List ℚ → ℚ) (stream : ℕ → ℕ → ℚ) : List (ℤ × ℚ) :=
  (List.range' 1 30).map
    (fun i => ((today + (i : ℕ), model (featureRow features (stream i))) : ℤ × ℚ))

/-- A successful response whose `aqi` value is the falsy number 0. -/
def respOkZero : Json :=
  Json.obj [("status", Json.str "ok"),
    ("data", Json.obj [("aqi", Json.num 0), ("iaqi", Json.obj [])])]

/-- A successful response carrying an `aqi` value and an `iaqi` mapping. -/
def respOkFull : Json :=
  Json.obj [("status", Json.str "ok"),
    ("data", Json.obj [("aqi", Json.num 152),
      ("iaqi", Json.obj [("pm25", Json.obj [("v", Json.num 152)])])])]

theorem getD_map_range' {α : Type} (f : ℕ → α) (d : α) :
    ∀ (n s i : ℕ), i < n → ((List.range' s n).map f).getD i d = f (s + i) := by
  intro n
  induction n with
  | zero => intro s i h; omega
  | succ m ih =>
    intro s i h
    cases i with
    | zero => simp [List.range']
    | succ k =>
      have := ih (s + 1) k (by omega)
      simp only [List.range', List.map, List.getD]
      simpa [Nat.add_assoc, Nat.add_comm, Nat.add_left_comm] using this

theorem sample_bounds (lo hi u : ℚ) (hle : lo ≤ hi) (h0 : 0 ≤ u) (h1 : u ≤ 1) :
    lo ≤ lo + u * (hi - lo) ∧ lo + u * (hi - lo) ≤ hi :=
  ⟨by nlinarith, by nlinarith⟩

theorem declaredRange_le (t : Token) :
    (declaredRange t).1 ≤ (declaredRange t).2 := by
  cases t <;> norm_num [declaredRange]

theorem synthRange_bounds (col : List Char) :
    0 ≤ (synthRange col).1 ∧ (synthRange col).1 ≤ (synthRange col).2 ∧
      (synthRange col).2 ≤ 250 := by
  simp only [synthRange]
  split_ifs <;> norm_num

theorem synthRange_eq_firstTokenMatch (col : List Char) :
    synthRange col =
      (match firstTokenMatch (pyLower col) with
       | some t => declaredRange t
       | none => (0, 100)) := by
  simp only [synthRange, firstTokenMatch, matchesToken, declaredRange]
  split_ifs <;> rfl

/-- Claim C1: the forecast generator returns exactly 30 points, and the
point at (zero-based) position `i` carries the date `today + (i + 1)`, so
the dates form a strictly increasing run of consecutive calendar days
starting at the current date plus one day. -/
theorem forecast_thirty_consecutive_days (today : ℤ) (features : List (List Char))
    (model : List ℚ → ℚ) (stream : ℕ → ℕ → ℚ) (i : ℕ) (h : i < 30) :
    (forecastPoints today features model stream).length = 30 ∧
    ((forecastPoints today features model stream).getD i (0, 0)).1 =
      today + ((i : ℤ) + 1) := by
  constructor
  · simp [forecastPoints]
  · rw [forecastPoints, getD_map_range' _ _ 30 1 i h]
    push_cast
    ring

/-- Witness for C1 at a concrete run: the empty feature list, the zero
model, index 0. -/
theorem forecast_thirty_consecutive_days_witness :
    (0 : ℕ) < 30 ∧
    ((forecastPoints 0 [] (fun _ => 0) (fun _ _ => 0)).length = 30 ∧
      ((forecastPoints 0 [] (fun _ => 0) (fun _ _ => 0)).getD 0 (0, 0)).1 =
        0 + (((0 : ℕ) : ℤ) + 1)) :=
  ⟨by decide, forecast_thirty_consecutive_days 0 [] (fun _ => 0) (fun _ _ => 0) 0 (by decide)⟩

/-- Claim C2 counterexample: the feature name "humidity" matches the
humid token (case-insensitive substring), yet at unit draw 0 the sampler
returns 10, which lies outside the humid token's declared range (20, 80)
(the name also contains "t", so the temp/t branch fires first). -/
theorem sampler_token_range_counterexample :
    matchesToken Token.humid (pyLower "humidity".toList) = true ∧
    (0 : ℚ) ≤ 0 ∧ (0 : ℚ) ≤ 1 ∧
    synthesize_value "humidity".toList 0 = 10 ∧
    ¬((declaredRange Token.humid).1 ≤ synthesize_value "humidity".toList 0) := by
  have hr : synthRange "humidity".toList = (10, 40) := rfl
  have hv : synthesize_value "humidity".toList 0 = 10 := by
    rw [synthesize_value, hr]; norm_num
  refine ⟨by decide, by norm_num, by norm_num, hv, ?_⟩
  rw [hv]
  have hd : declaredRange Token.humid = (20, 80) := rfl
  rw [hd]
  norm_num

/-- Claim C2 amended: for every feature name, the sampler's output lies
within the declared range of the FIRST token that matches it in the
source's dispatch order (pm2, pm10, no2, o3, so2, co, temp/t, humid/h); a
name that also matches a later token may sample outside that later
token's range. -/
theorem sampler_first_match_range (col : List Char) (t : Token) (u : ℚ)
    (hm : firstTokenMatch (pyLower col) = some t)
    (h0 : 0 ≤ u) (h1 : u ≤ 1) :
    (declaredRange t).1 ≤ synthesize_value col u ∧
    synthesize_value col u ≤ (declaredRange t).2 := by
  have hr : synthRange col = declaredRange t := by
    rw [synthRange_eq_firstTokenMatch col, hm]
  rw [synthesize_value, hr]
  exact sample_bounds _ _ u (declaredRange_le t) h0 h1

/-- Witness for the amended C2: the name "pm25" first matches the pm2
token, and at unit draw 1/2 the sample 110 lies inside (40, 180). -/
theorem sampler_first_match_range_witness :
    firstTokenMatch (pyLower "pm25".toList) = some Token.pm2 ∧
    ((declaredRange Token.pm2).1 ≤ synthesize_value "pm25".toList (1/2) ∧
      synthesize_value "pm25".toList (1/2) ≤ (declaredRange Token.pm2).2) :=
  ⟨by decide,
    sampler_first_match_range "pm25".toList Token.pm2 (1/2) (by decide)
      (by norm_num) (by norm_num)⟩

/-- Claim C3 counterexample: on a well-formed "ok" response whose `aqi`
is 0, the client returns a PRESENT headline value, yet the caller still
substitutes 160 — so the fallback is not triggered in exactly the absence
cases. -/
theorem fallback_not_only_on_absence :
    respOkZero.get "status" = some (Json.str "ok") ∧
    (fetch_live_aqi (some respOkZero)).1 = some (Json.num 0) ∧
    (fetch_live_aqi (some respOkZero)).1 ≠ none ∧
    resolveLive (fetch_live_aqi (some respOkZero)).1 = Json.num 160 := by
  refine ⟨rfl, rfl, ?_, rfl⟩
  simp [respOkZero, fetch_live_aqi, Json.get, lookupField]

/-- Claim C3 amended: for every non-"ok" or malformed response the client
returns an absence signal and the caller substitutes 160; the fallback is
NOT exclusive to that case, since it is triggered by falsiness of the
returned index rather than by absence alone. -/
theorem malformed_response_fallback (resp : Option Json)
    (h : malformedResponse resp) :
    (fetch_live_aqi resp).1 = none ∧
    resolveLive (fetch_live_aqi resp).1 = Json.num 160 := by
  have hnone : (fetch_live_aqi resp).1 = none := by
    cases resp with
    | none => rfl
    | some r =>
      simp only [malformedResponse] at h
      simp only [fetch_live_aqi]
      rcases hst : r.get "status" with _ | j
      · rfl
      · cases j with
        | str s =>
          by_cases hs : s = "ok"
          · subst hs
            rcases h with h | h | ⟨d, hd, ha⟩
            · exact absurd hst h
            · simp [h]
            · simp [hd, ha]
          · simp [hs]
        | null => rfl
        | bool b => rfl
        | num q => rfl
        | arr elems => rfl
        | obj fields => rfl
  exact ⟨hnone, by rw [hnone]; rfl⟩

/-- Witness for the amended C3: a response with status "error". -/
theorem malformed_response_fallback_witness :
    (fetch_live_aqi (some (Json.obj [("status", Json.str "error")]))).1 = none ∧
    resolveLive
      (fetch_live_aqi (some (Json.obj [("status", Json.str "error")]))).1 =
      Json.num 160 :=
  malformed_response_fallback _ (Or.inl (by simp [Json.get, lookupField]))

/-- Claim C4: on a response whose status is the string "ok" and whose
data object carries `aqi` and `iaqi`, the client returns exactly that
`aqi` value and exactly that `iaqi` mapping, unmodified. -/
theorem ok_response_exact (r d a m : Json)
    (hs : r.get "status" = some (Json.str "ok"))
    (hd : r.get "data" = some d)
    (ha : d.get "aqi" = some a)
    (hi : d.get "iaqi" = some m) :
    fetch_live_aqi (some r) = (some a, m) := by
  simp [fetch_live_aqi, hs, hd, ha, hi]

/-- Witness for C4: a concrete "ok" response with aqi 152 and a pm25
sub-reading. -/
theorem ok_response_exact_witness :
    fetch_live_aqi (some respOkFull) =
      (some (Json.num 152), Json.obj [("pm25", Json.obj [("v", Json.num 152)])]) :=
  ok_response_exact respOkFull
    (Json.obj [("aqi", Json.num 152),
      ("iaqi", Json.obj [("pm25", Json.obj [("v", Json.num 152)])])])
    (Json.num 152)
    (Json.obj [("pm25", Json.obj [("v", Json.num 152)])])
    rfl rfl rfl rfl

/-- Claim C5: the loading block halts exactly when the model artifact is
absent or, the model being present, when both the feature manifest and
model introspection are unavailable; with the model present it resolves
the feature columns from the manifest first, else from introspection. -/
theorem model_loader_resolution (env : LoaderEnv) :
    (env.modelExists = false → loadModel env = .halted) ∧
    (env.modelExists = true → env.manifestExists = true →
      loadModel env = .loaded env.manifest) ∧
    (env.modelExists = true → env.manifestExists = false →
      ∀ fs, env.introspect = some fs → loadModel env = .loaded fs) ∧
    (env.modelExists = true →
      (loadModel env = .halted ↔
        env.manifestExists = false ∧ env.introspect = none)) := by
  obtain ⟨me, mf, man, ins⟩ := env
  cases me <;> cases mf <;> cases ins <;> simp [loadModel]

/-- Witness for C5: model present, manifest absent, introspection
returning one column. -/
theorem model_loader_resolution_witness :
    loadModel ⟨true, false, [], some ["pm25"]⟩ = .loaded ["pm25"] :=
  (model_loader_resolution ⟨true, false, [], some ["pm25"]⟩).2.2.1 rfl rfl
    ["pm25"] rfl

/-- Claim C6: a feature name matching none of the known tokens is sampled
from the default range, so its range is (0, 100) and the sample lies in
the interval from 0 to 100. -/
theorem sampler_default_range (col : List Char) (u : ℚ)
    (h : noKnownToken (pyLower col)) (h0 : 0 ≤ u) (h1 : u ≤ 1) :
    synthRange col = (0, 100) ∧
    0 ≤ synthesize_value col u ∧ synthesize_value col u ≤ 100 := by
  obtain ⟨n1, n2, n3, n4, n5, n6, n7, n8, n9, n10⟩ := h
  have hr : synthRange col = (0, 100) := by
    simp only [synthRange]
    rw [n1, n2, n3, n4, n5, n6, n7, n8, n9, n10]
    simp
  refine ⟨hr, ?_⟩
  have := sample_bounds 0 100 u (by norm_num) h0 h1
  rw [synthesize_value, hr]
  simpa using this

/-- Witness for C6: the name "abc" matches no token; at unit draw 1/2
the sample is inside the default interval. -/
theorem sampler_default_range_witness :
    synthRange "abc".toList = (0, 100) ∧
    0 ≤ synthesize_value "abc".toList (1/2) ∧
      synthesize_value "abc".toList (1/2) ≤ 100 :=
  sampler_default_range "abc".toList (1/2)
    (by simp only [noKnownToken]; decide) (by norm_num) (by norm_num)

/-- Claim C9: the caller's fallback keys on falsiness of the returned
index, not on absence: an "ok" response whose `aqi` is falsy (for example
0) yields a present client value that the caller still replaces by 160. -/
theorem falsy_aqi_fallback (r d a : Json)
    (hs : r.get "status" = some (Json.str "ok"))
    (hd : r.get "data" = some d)
    (ha : d.get "aqi" = some a)
    (hf : truthy a = false) :
    (fetch_live_aqi (some r)).1 = some a ∧
    resolveLive (fetch_live_aqi (some r)).1 = Json.num 160 := by
  have h1 : (fetch_live_aqi (some r)).1 = some a := by
    simp [fetch_live_aqi, hs, hd, ha]
  refine ⟨h1, ?_⟩
  rw [h1]
  simp [resolveLive, hf]

/-- Witness for C9: the "ok" response with `aqi` equal to 0. -/
theorem falsy_aqi_fallback_witness :
    (fetch_live_aqi (some respOkZero)).1 = some (Json.num 0) ∧
    resolveLive (fetch_live_aqi (some respOkZero)).1 = Json.num 160 :=
  falsy_aqi_fallback respOkZero
    (Json.obj [("aqi", Json.num 0), ("iaqi", Json.obj [])])
    (Json.num 0) rfl rfl rfl rfl

/-- Claim C10: the sampler is total and bounded: for every feature name
and every unit draw in [0, 1], the returned value lies in [0, 250], the
union of all declared ranges and the default range. -/
theorem sampler_total_bounds (col : List Char) (u : ℚ)
    (h0 : 0 ≤ u) (h1 : u ≤ 1) :
    0 ≤ synthesize_value col u ∧ synthesize_value col u ≤ 250 := by
  obtain ⟨hb0, hb1, hb2⟩ := synthRange_bounds col
  obtain ⟨hl, hr⟩ := sample_bounds (synthRange col).1 (synthRange col).2 u hb1 h0 h1
  rw [synthesize_value]
  exact ⟨le_trans hb0 hl, le_trans hr hb2⟩

/-- Witness for C10: the name "pm10" at unit draw 1. -/
theorem sampler_total_bounds_witness :
    0 ≤ synthesize_value "pm10".toList 1 ∧
      synthesize_value "pm10".toList 1 ≤ 250 :=
  sampler_total_bounds "pm10".toList 1 (by norm_num) (by norm_num)

/-- Claim C8: the forecast pipeline is not a deterministic function of
the run: there are two unit-random streams, both within [0, 1], whose
30-point forecast sequences differ. -/
theorem forecast_nondeterministic :
    ∃ (today : ℤ) (features : List (List Char)) (model : List ℚ → ℚ)
      (s1 s2 : ℕ → ℕ → ℚ),
      (∀ i j, 0 ≤ s1 i j ∧ s1 i j ≤ 1) ∧
      (∀ i j, 0 ≤ s2 i j ∧ s2 i j ≤ 1) ∧
      forecastPoints today features model s1 ≠
        forecastPoints today features model s2 := by
  refine ⟨0, ["abc".toList], fun row => row.getD 0 0,
    fun _ _ => 0, fun _ _ => 1, ?_, ?_, ?_⟩
  · intro i j; norm_num
  · intro i j; norm_num
  · intro hEq
    have h0 : ((forecastPoints 0 ["abc".toList] (fun row => row.getD 0 0)
        (fun _ _ => 0)).getD 0 (0, 0)).2 = 0 := by
      rw [forecastPoints, getD_map_range' _ _ 30 1 0 (by norm_num)]
      have hr : synthRange ['a', 'b', 'c'] = (0, 100) := rfl
      simp [featureRow, synthesize_value, hr]
    have h100 : ((forecastPoints 0 ["abc".toList] (fun row => row.getD 0 0)
        (fun _ _ => 1)).getD 0 (0, 0)).2 = 100 := by
      rw [forecastPoints, getD_map_range' _ _ 30 1 0 (by norm_num)]
      have hr : synthRange ['a', 'b', 'c'] = (0, 100) := rfl
      simp [featureRow, synthesize_value, hr]
    rw [hEq, h100] at h0
    norm_num at h0
